import Mathlib

/-!
Verification development for the TaskMaster task-management application.

The source of truth is the React Native client under `frontend/app/`:
`index.tsx` (task list screen: filter/search/sort pipeline, quick add,
status toggle, stats), `add-task.tsx` (creation form), and
`analytics.tsx` (aggregate counts).  The REST backend (Task Service) is
not among the shipped sources; where a property depends on it, the
service operation is modelled from the specification and its doc
comment says so.

Timestamps (ISO-8601 strings on the wire) are embedded as natural
numbers denoting epoch milliseconds, which is what the client compares
after `new Date(...).getTime()`; the `date-fns` calendar predicates are
kept abstract as a structure of functions, since no claim depends on
their internals.  `Array.prototype.sort` with a consistent comparator
`cmp` is required by the JS standard to return a stable reordering that
is sorted with respect to `cmp ≤ 0`; it is embedded as a stable
insertion sort over that relation.
-/

namespace TaskMaster

/-- The `priority` enum of the Task model: "low", "medium", "high". -/
inductive Priority where
  | low
  | medium
  | high
deriving DecidableEq, Repr

/-- The `category` enum of the Task model: "work", "personal", "study", "other". -/
inductive Category where
  | work
  | personal
  | study
  | other
deriving DecidableEq, Repr

/-- The `status` enum of the Task model: "pending", "completed". -/
inductive Status where
  | pending
  | completed
deriving DecidableEq, Repr

/-- The JS string value of a priority, as stored in the Task JSON. -/
def Priority.str : Priority → String
  | .low => "low"
  | .medium => "medium"
  | .high => "high"

/-- The JS string value of a category, as stored in the Task JSON. -/
def Category.str : Category → String
  | .work => "work"
  | .personal => "personal"
  | .study => "study"
  | .other => "other"

/-- The JS string value of a status, as stored in the Task JSON. -/
def Status.str : Status → String
  | .pending => "pending"
  | .completed => "completed"

/-- The `Task` interface of `index.tsx` / `analytics.tsx`.  `description`
and `due_date` are optional; timestamps are epoch milliseconds. -/
structure Task where
  id : String
  title : String
  description : Option String
  due_date : Option Nat
  priority : Priority
  category : Category
  status : Status
  created_at : Nat
  updated_at : Nat
deriving DecidableEq, Repr

/-- JS `String.prototype.toLowerCase` (character-wise lowering). -/
def strLower (s : String) : String :=
  ⟨s.data.map Char.toLower⟩

/-- JS `String.prototype.trim`: strip leading and trailing whitespace. -/
def strTrim (s : String) : String :=
  ⟨((s.data.dropWhile Char.isWhitespace).reverse.dropWhile Char.isWhitespace).reverse⟩

/-- Relation `beginsWith needle hay`: `hay` starts with `needle` (character lists). -/
def beginsWith : List Char → List Char → Bool
  | [], _ => true
  | _ :: _, [] => false
  | a :: as, b :: bs => a == b && beginsWith as bs

/-- Test `occursIn needle hay`: `needle` occurs as a contiguous run inside `hay`. -/
def occursIn (needle : List Char) : List Char → Bool
  | [] => needle.isEmpty
  | c :: rest => beginsWith needle (c :: rest) || occursIn needle rest

/-- JS `hay.includes(needle)` on strings. -/
def strIncludes (hay needle : String) : Bool :=
  occursIn needle.data hay.data

/-- The search predicate of the filter `useEffect` in `index.tsx`:
`task.title.toLowerCase().includes(q.toLowerCase()) ||
 (task.description && task.description.toLowerCase().includes(q.toLowerCase()))`.
(A present-but-empty `description` is falsy in JS; that differs from
`some ""` here only for an empty query, in which case the search filter
is not applied at all.) -/
def matchesSearch (searchQuery : String) (t : Task) : Bool :=
  strIncludes (strLower t.title) (strLower searchQuery) ||
    (match t.description with
     | some d => strIncludes (strLower d) (strLower searchQuery)
     | none => false)

/-- The table `priorityOrder = \x7b high: 3, medium: 2, low: 1 \x7d` from the sort
comparator in `index.tsx`. -/
def priorityOrder : Priority → Int
  | .high => 3
  | .medium => 2
  | .low => 1

/-- Model of `a.localeCompare(b)` in the "title" sort branch. -/
def localeCompareInt (a b : String) : Int :=
  if a < b then -1 else if b < a then 1 else 0

/-- The sort comparator of the filter/sort `useEffect` in `index.tsx`
(`filtered.sort((a, b) => { switch (sortBy) ... })`), as the JS
comparator value. -/
def taskCmp (sortBy : String) (a b : Task) : Int :=
  match sortBy with
  | "title" => localeCompareInt a.title b.title
  | "due_date" =>
    match a.due_date, b.due_date with
    | none, none => 0
    | none, some _ => 1
    | some _, none => -1
    | some x, some y => (x : Int) - (y : Int)
  | "priority" => priorityOrder b.priority - priorityOrder a.priority
  | _ => (b.created_at : Int) - (a.created_at : Int)

/-- Holds when `a` may be placed no later than `b`: comparator value `≤ 0`. -/
def taskRel (sortBy : String) (a b : Task) : Prop :=
  taskCmp sortBy a b ≤ 0

instance (sortBy : String) : DecidableRel (taskRel sortBy) :=
  fun a b => Int.decLe (taskCmp sortBy a b) 0

/-- The whole filter/search/sort pipeline of the `useEffect` in
`index.tsx` computing `filteredTasks` from `tasks` and the UI state
(search query, category/priority/status selections with their "all"
sentinel, sort key). -/
def filteredSortedTasks (tasks : List Task) (searchQuery selectedCategory
    selectedPriority selectedStatus sortBy : String) : List Task :=
  let f1 := if searchQuery ≠ "" then tasks.filter (matchesSearch searchQuery) else tasks
  let f2 := if selectedCategory ≠ "all" then
      f1.filter (fun t => t.category.str == selectedCategory) else f1
  let f3 := if selectedPriority ≠ "all" then
      f2.filter (fun t => t.priority.str == selectedPriority) else f2
  let f4 := if selectedStatus ≠ "all" then
      f3.filter (fun t => t.status.str == selectedStatus) else f3
  f4.insertionSort (taskRel sortBy)

/-- The request body of `POST /api/tasks` as built by the client. -/
structure CreateBody where
  title : String
  description : Option String
  due_date : Option Nat
  priority : Option Priority
  category : Option Category
deriving DecidableEq, Repr

/-- Function `quickAddTask` in `index.tsx`: the POST body it issues, or `none`
when the guard `if (!quickAddText.trim()) return;` fires, in which case
no request at all is sent. -/
def quickAddBody (quickAddText : String) : Option CreateBody :=
  if strTrim quickAddText = "" then none
  else some { title := strTrim quickAddText, description := none,
              due_date := none, priority := some .medium,
              category := some .personal }

/-- Function `createTask` in `add-task.tsx`: the POST body it issues, or `none`
when validation fails (`if (!title.trim())` shows an alert and returns
without any request).  The body carries the trimmed title and
description and the picked priority/category; `due_date` is spread in
only when a date was chosen. -/
def createTaskBody (title description : String) (priority : Priority)
    (category : Category) (dueDate : Option Nat) : Option CreateBody :=
  if strTrim title = "" then none
  else some { title := strTrim title, description := some (strTrim description),
              due_date := dueDate, priority := some priority,
              category := some category }

/-- Errors of the Task Service, following the error taxonomy of the spec. -/
inductive SvcError where
  | validation
  | notFound
deriving DecidableEq, Repr

/-- Modelled from the spec: the Task Service `create` operation (the
backend is not among the shipped sources).  Title is required, trimmed,
rejected if empty with no partial write; otherwise the service generates
a fresh id, sets `created_at = updated_at =` current time, status
`pending`, defaults priority to `medium` and category to `personal`
when omitted, and appends the record to the store. -/
def serviceCreate (store : List Task) (b : CreateBody) (freshId : String)
    (now : Nat) : Except SvcError Task × List Task :=
  if strTrim b.title = "" then (.error .validation, store)
  else
    let t : Task :=
      { id := freshId, title := strTrim b.title,
        description := b.description, due_date := b.due_date,
        priority := b.priority.getD .medium,
        category := b.category.getD .personal,
        status := .pending, created_at := now, updated_at := now }
    (.ok t, store ++ [t])

/-- The request body of `PUT /api/tasks/{id}`: any subset of the mutable
fields; `none` marks a field as not supplied. -/
structure UpdateBody where
  title : Option String
  description : Option String
  due_date : Option Nat
  priority : Option Priority
  category : Option Category
  status : Option Status
deriving DecidableEq, Repr

/-- Modelled from the spec: merging a partial update into an existing
record — "merges supplied fields into the existing record, refreshes
`updated_at`, leaves unsupplied fields untouched".  `id` and
`created_at` are immutable. -/
def mergeTask (t : Task) (b : UpdateBody) (now : Nat) : Task :=
  { t with
    title := b.title.getD t.title
    description := match b.description with | some d => some d | none => t.description
    due_date := match b.due_date with | some d => some d | none => t.due_date
    priority := b.priority.getD t.priority
    category := b.category.getD t.category
    status := b.status.getD t.status
    updated_at := now }

/-- Modelled from the spec: the Task Service `update` operation (the
backend is not among the shipped sources).  Rejects an empty-string
title when title is among the supplied fields; signals not-found when
no stored record has the id; otherwise merges the supplied fields into
the matching record and persists.  Returns the resulting store. -/
def serviceUpdate (store : List Task) (tid : String) (b : UpdateBody)
    (now : Nat) : Except SvcError (List Task) :=
  if (match b.title with | some s => strTrim s == "" | none => false) then
    .error .validation
  else if store.any (fun t => t.id == tid) then
    .ok (store.map fun t => if t.id == tid then mergeTask t b now else t)
  else .error .notFound

/-- An update body supplying only `status`, as sent by
`toggleTaskStatus` in `index.tsx` (`body: JSON.stringify({ status: newStatus })`). -/
def statusOnly (st : Status) : UpdateBody :=
  { title := none, description := none, due_date := none, priority := none,
    category := none, status := some st }

/-- The new status chosen by `toggleTaskStatus` in `index.tsx`:
`task.status === "pending" ? "completed" : "pending"`. -/
def toggledStatus (t : Task) : Status :=
  if t.status == .pending then .completed else .pending

/-- The optimistic local state update of `toggleTaskStatus` in
`index.tsx`: `prevTasks.map(t => t.id === task.id ? { ...t, status: newStatus } : t)`. -/
def toggleTaskStatusLocal (prevTasks : List Task) (task : Task) : List Task :=
  prevTasks.map fun t =>
    if t.id == task.id then { t with status := toggledStatus task } else t

/-- Modelled from the spec: the `due_date` comparator of the list operation in
the descending direction — "`due_date` sort treats tasks with no due
date as sorting after all tasks that have one, in either direction";
tasks that both have due dates compare by timestamp, reversed. (The
comparator of the client in `index.tsx` covers the ascending direction;
the `order` query parameter lives in the backend list API.) -/
def dueDateCmpDesc (a b : Task) : Int :=
  match a.due_date, b.due_date with
  | none, none => 0
  | none, some _ => 1
  | some _, none => -1
  | some x, some y => (y : Int) - (x : Int)

/-- Holds when `a` may be placed no later than `b` under the descending due-date
comparator. -/
def dueDateRelDesc (a b : Task) : Prop :=
  dueDateCmpDesc a b ≤ 0

instance : DecidableRel dueDateRelDesc :=
  fun a b => Int.decLe (dueDateCmpDesc a b) 0

/-- Modelled from the spec: the list operation sorted by `due_date` in
descending direction. -/
def listDueDateDesc (tasks : List Task) : List Task :=
  tasks.insertionSort dueDateRelDesc

/-- The `date-fns` calendar functions used by the client, kept abstract:
no claim depends on their internals, only on where the client refuses to
call them. -/
structure DateFns where
  isToday : Nat → Bool
  isTomorrow : Nat → Bool
  isPast : Nat → Bool
  differenceInDays : Nat → Nat → Int
  startOfDay : Nat → Nat
  endOfDay : Nat → Nat

/-- The due-date badge computed by `getDueDateInfo` in `index.tsx`:
text, theme-palette colour key, urgency flag. -/
structure DueInfo where
  text : String
  color : String
  urgent : Bool
deriving DecidableEq, Repr

/-- Function `getDueDateInfo` in `index.tsx`: `if (!due_date) return null;` then
classify as Today / Tomorrow / overdue / days-left. -/
def getDueDateInfo (df : DateFns) (now : Nat) (due_date : Option Nat) :
    Option DueInfo :=
  match due_date with
  | none => none
  | some d =>
    if df.isToday d then some ⟨"Today", "warning", true⟩
    else if df.isTomorrow d then some ⟨"Tomorrow", "accent", false⟩
    else if df.isPast d then
      some ⟨toString (df.differenceInDays d now).natAbs ++ "d overdue", "error", true⟩
    else
      some ⟨toString (df.differenceInDays d now) ++ "d left", "textSecondary", false⟩

/-- The stats block of the list screen. -/
structure Stats where
  total : Nat
  completed : Nat
  pending : Nat
  overdue : Nat
deriving DecidableEq, Repr

/-- Function `getTaskStats` in `index.tsx`; `overdue` counts
`t.due_date && isPast(new Date(t.due_date)) && t.status === "pending"`. -/
def getTaskStats (df : DateFns) (tasks : List Task) : Stats :=
  let total := tasks.length
  let completed := (tasks.filter fun t => t.status == .completed).length
  let pending := total - completed
  let overdue := (tasks.filter fun t =>
    (match t.due_date with | some d => df.isPast d | none => false)
      && t.status == .pending).length
  ⟨total, completed, pending, overdue⟩

/-- The `overdueTasks` count of `analyzeData` in `analytics.tsx`:
`t.due_date && t.status === "pending" && new Date(t.due_date) < startOfDay(now)`. -/
def overdueTasksCount (df : DateFns) (now : Nat) (tasks : List Task) : Nat :=
  (tasks.filter fun t =>
    match t.due_date with
    | some d => t.status == .pending && decide (d < df.startOfDay now)
    | none => false).length

/-- The `todaysTasks` count of `analyzeData` in `analytics.tsx`:
`if (!t.due_date) return false;` then
`taskDate >= startOfDay(now) && taskDate <= endOfDay(now)`. -/
def todaysTasksCount (df : DateFns) (now : Nat) (tasks : List Task) : Nat :=
  (tasks.filter fun t =>
    match t.due_date with
    | none => false
    | some d => decide (df.startOfDay now ≤ d) && decide (d ≤ df.endOfDay now)).length

/-- A sample task for concrete evaluations. -/
def sampleTask : Task :=
  { id := "1", title := "Buy Milk", description := none, due_date := none,
    priority := .low, category := .work, status := .pending,
    created_at := 5, updated_at := 5 }

/-- A second sample task. -/
def sampleTask2 : Task :=
  { id := "2", title := "Run", description := none, due_date := none,
    priority := .high, category := .work, status := .completed,
    created_at := 3, updated_at := 3 }

/-- Trivial calendar functions, for concrete evaluations. -/
def sampleDateFns : DateFns :=
  { isToday := fun _ => false, isTomorrow := fun _ => false,
    isPast := fun _ => true, differenceInDays := fun _ _ => 0,
    startOfDay := fun n => n, endOfDay := fun n => n }

example :
    filteredSortedTasks [sampleTask, sampleTask2] "" "all" "all" "all" "priority"
      = [sampleTask2, sampleTask] := by decide

example : strIncludes (strLower "Buy Milk") (strLower "milk") = true := by decide

theorem taskCmp_priority (a b : Task) :
    taskCmp "priority" a b = priorityOrder b.priority - priorityOrder a.priority := rfl

theorem taskCmp_due_date (a b : Task) :
    taskCmp "due_date" a b =
      (match a.due_date, b.due_date with
       | none, none => 0
       | none, some _ => 1
       | some _, none => -1
       | some x, some y => (x : Int) - (y : Int)) := rfl

theorem taskCmp_created_at (a b : Task) :
    taskCmp "created_at" a b = (b.created_at : Int) - (a.created_at : Int) := rfl

/-- Membership in the displayed list is exactly membership in the fetched
list together with the condition of every active filter. -/
theorem mem_filteredSortedTasks (tasks : List Task)
    (q c p s sb : String) (t : Task) :
    t ∈ filteredSortedTasks tasks q c p s sb ↔
      t ∈ tasks ∧ (q ≠ "" → matchesSearch q t = true) ∧
      (c ≠ "all" → t.category.str = c) ∧
      (p ≠ "all" → t.priority.str = p) ∧
      (s ≠ "all" → t.status.str = s) := by
  simp only [filteredSortedTasks, List.mem_insertionSort]
  split_ifs with h1 h2 h3 h4 <;>
    simp_all [List.mem_filter] <;> tauto

theorem taskRel_priority_total : ∀ a b : Task,
    taskRel "priority" a b ∨ taskRel "priority" b a := by
  intro a b
  simp only [taskRel, taskCmp_priority]
  omega

theorem taskRel_priority_trans : ∀ a b c : Task,
    taskRel "priority" a b → taskRel "priority" b c → taskRel "priority" a c := by
  intro a b c
  simp only [taskRel, taskCmp_priority]
  omega

theorem taskRel_created_at_total : ∀ a b : Task,
    taskRel "created_at" a b ∨ taskRel "created_at" b a := by
  intro a b
  simp only [taskRel, taskCmp_created_at]
  omega

theorem taskRel_created_at_trans : ∀ a b c : Task,
    taskRel "created_at" a b → taskRel "created_at" b c →
      taskRel "created_at" a c := by
  intro a b c
  simp only [taskRel, taskCmp_created_at]
  omega

theorem taskRel_due_date_total : ∀ a b : Task,
    taskRel "due_date" a b ∨ taskRel "due_date" b a := by
  intro a b
  simp only [taskRel, taskCmp_due_date]
  rcases a.due_date with _ | x <;> rcases b.due_date with _ | y <;> simp
  omega

theorem taskRel_due_date_trans : ∀ a b c : Task,
    taskRel "due_date" a b → taskRel "due_date" b c → taskRel "due_date" a c := by
  intro a b c
  simp only [taskRel, taskCmp_due_date]
  rcases a.due_date with _ | x <;> rcases b.due_date with _ | y <;>
    rcases c.due_date with _ | z <;> simp
  omega

theorem dueDateRelDesc_total : ∀ a b : Task,
    dueDateRelDesc a b ∨ dueDateRelDesc b a := by
  intro a b
  simp only [dueDateRelDesc, dueDateCmpDesc]
  rcases a.due_date with _ | x <;> rcases b.due_date with _ | y <;> simp
  omega

theorem dueDateRelDesc_trans : ∀ a b c : Task,
    dueDateRelDesc a b → dueDateRelDesc b c → dueDateRelDesc a c := by
  intro a b c
  simp only [dueDateRelDesc, dueDateCmpDesc]
  rcases a.due_date with _ | x <;> rcases b.due_date with _ | y <;>
    rcases c.due_date with _ | z <;> simp
  omega

/-- C1: with no search query, the displayed list contains exactly the
fetched tasks that satisfy every supplied equality filter (category,
priority, status) simultaneously; a filter left at "all" imposes no
condition.  In particular, with the status filter at `"completed"` the
output holds exactly the stored tasks whose status is `"completed"`
(among those passing the other filters). -/
theorem c1_filters_are_conjunctive (tasks : List Task) (c p s sb : String)
    (t : Task) :
    t ∈ filteredSortedTasks tasks "" c p s sb ↔
      t ∈ tasks ∧ (c ≠ "all" → t.category.str = c) ∧
      (p ≠ "all" → t.priority.str = p) ∧
      (s ≠ "all" → t.status.str = s) := by
  have h := mem_filteredSortedTasks tasks "" c p s sb t
  simpa using h

/-- C2: sorting by priority orders the output semantically: whenever one
task appears before another, the `priorityOrder` value of the later one
(high = 3, medium = 2, low = 1) does not exceed that of the earlier one, so a
task of higher priority never appears after one of strictly lower
priority. -/
theorem c2_priority_sort_semantic (tasks : List Task) (q c p s : String) :
    (filteredSortedTasks tasks q c p s "priority").Pairwise
      (fun a b => priorityOrder b.priority ≤ priorityOrder a.priority) := by
  simp only [filteredSortedTasks]
  haveI : IsTotal Task (taskRel "priority") := ⟨taskRel_priority_total⟩
  haveI : IsTrans Task (taskRel "priority") := ⟨taskRel_priority_trans⟩
  refine List.Pairwise.imp ?_ (List.sorted_insertionSort (taskRel "priority") _)
  intro a b h
  simp only [taskRel, taskCmp_priority] at h
  omega

/-- C6: sorting by due date puts every task without a due date after all
tasks that have one, and orders tasks that both have due dates by their
timestamps — in the ascending client comparator and in the
spec-modelled descending direction alike. -/
theorem c6_due_date_sort_none_last (tasks : List Task) (q c p s : String) :
    ((filteredSortedTasks tasks q c p s "due_date").Pairwise fun a b =>
        (a.due_date = none → b.due_date = none) ∧
        (∀ x y, a.due_date = some x → b.due_date = some y → x ≤ y)) ∧
    ((listDueDateDesc tasks).Pairwise fun a b =>
        (a.due_date = none → b.due_date = none) ∧
        (∀ x y, a.due_date = some x → b.due_date = some y → y ≤ x)) := by
  constructor
  · simp only [filteredSortedTasks]
    haveI : IsTotal Task (taskRel "due_date") := ⟨taskRel_due_date_total⟩
    haveI : IsTrans Task (taskRel "due_date") := ⟨taskRel_due_date_trans⟩
    refine List.Pairwise.imp ?_ (List.sorted_insertionSort (taskRel "due_date") _)
    intro a b h
    simp only [taskRel, taskCmp_due_date] at h
    rcases ha : a.due_date with _ | x <;> rcases hb : b.due_date with _ | y <;>
      simp_all
  · simp only [listDueDateDesc]
    haveI : IsTotal Task dueDateRelDesc := ⟨dueDateRelDesc_total⟩
    haveI : IsTrans Task dueDateRelDesc := ⟨dueDateRelDesc_trans⟩
    refine List.Pairwise.imp ?_ (List.sorted_insertionSort dueDateRelDesc _)
    intro a b h
    simp only [dueDateRelDesc, dueDateCmpDesc] at h
    rcases ha : a.due_date with _ | x <;> rcases hb : b.due_date with _ | y <;>
      simp_all

/-- C7: under the default sort key "created_at", any two adjacent tasks
of the displayed list have non-increasing `created_at` timestamps: the
list is ordered created_at-descending. -/
theorem c7_default_sort_created_at_desc (tasks : List Task)
    (q c p s : String) :
    (filteredSortedTasks tasks q c p s "created_at").Chain'
      (fun a b => b.created_at ≤ a.created_at) := by
  have hp : (filteredSortedTasks tasks q c p s "created_at").Pairwise
      (fun a b => b.created_at ≤ a.created_at) := by
    simp only [filteredSortedTasks]
    haveI : IsTotal Task (taskRel "created_at") := ⟨taskRel_created_at_total⟩
    haveI : IsTrans Task (taskRel "created_at") := ⟨taskRel_created_at_trans⟩
    refine List.Pairwise.imp ?_ (List.sorted_insertionSort (taskRel "created_at") _)
    intro a b h
    simp only [taskRel, taskCmp_created_at] at h
    omega
  exact hp.chain'

/-- C9: with a non-empty search query, the displayed list contains
exactly the tasks passing the category/priority/status filters whose
title contains the query case-insensitively, or whose description is
present and contains it case-insensitively. -/
theorem c9_search_filter (tasks : List Task) (q c p s sb : String)
    (t : Task) (hq : q ≠ "") :
    t ∈ filteredSortedTasks tasks q c p s sb ↔
      t ∈ tasks ∧
      (strIncludes (strLower t.title) (strLower q) = true ∨
        ∃ d, t.description = some d ∧
          strIncludes (strLower d) (strLower q) = true) ∧
      (c ≠ "all" → t.category.str = c) ∧
      (p ≠ "all" → t.priority.str = p) ∧
      (s ≠ "all" → t.status.str = s) := by
  rw [mem_filteredSortedTasks]
  have hm : matchesSearch q t = true ↔
      (strIncludes (strLower t.title) (strLower q) = true ∨
        ∃ d, t.description = some d ∧
          strIncludes (strLower d) (strLower q) = true) := by
    cases hd : t.description <;> simp [matchesSearch, hd]
  rw [show (q ≠ "" → matchesSearch q t = true) ↔ matchesSearch q t = true by
    simp [hq]]
  rw [hm]

/-- C10: the pipeline fabricates nothing — every displayed task comes
from the fetched list — and with an empty query and all selections at
"all" the displayed list is a permutation of the fetched list. -/
theorem c10_pipeline_no_fabrication (tasks : List Task)
    (q c p s sb : String) :
    (∀ t ∈ filteredSortedTasks tasks q c p s sb, t ∈ tasks) ∧
    (filteredSortedTasks tasks "" "all" "all" "all" sb).Perm tasks := by
  constructor
  · intro t ht
    exact ((mem_filteredSortedTasks tasks q c p s sb t).mp ht).1
  · simp only [filteredSortedTasks]
    simp only [ne_eq, not_true_eq_false, if_false, ite_self]
    simpa using List.perm_insertionSort (taskRel sb) tasks

/-- C3: a create whose title trims to the empty string fails validation
and persists nothing: the service rejects it leaving the store exactly
as it was, and neither client entry point (`quickAddTask`,
`createTask`) even issues a request for such a title. -/
theorem c3_empty_title_create_rejected (store : List Task) (b : CreateBody)
    (freshId : String) (now : Nat) (text : String)
    (hb : strTrim b.title = "") (ht : strTrim text = "") :
    serviceCreate store b freshId now = (.error .validation, store) ∧
    quickAddBody text = none ∧
    (∀ d pr cat due, createTaskBody text d pr cat due = none) := by
  refine ⟨?_, ?_, fun d pr cat due => ?_⟩ <;>
    simp [serviceCreate, quickAddBody, createTaskBody, hb, ht]

/-- C4: updating an existing task with a body that supplies only
`status` rewrites the store pointwise: the matching record keeps its
`id`, `title`, `description`, `due_date`, `priority`, `category` and
`created_at`, takes the new status, and has `updated_at` refreshed to
the current time; every other record is returned entirely unchanged. -/
theorem c4_status_only_update_frame (store : List Task) (tid : String)
    (st : Status) (now : Nat)
    (hex : store.any (fun t => t.id == tid) = true) :
    serviceUpdate store tid (statusOnly st) now =
      .ok (store.map fun t =>
        if t.id == tid then { t with status := st, updated_at := now }
        else t) := by
  simp only [serviceUpdate, statusOnly, hex, if_true]
  simp [mergeTask]

/-- C5: a create with a non-empty (after trimming) title that omits
priority and category yields a task with priority `medium`, category
`personal`, status `pending`, and equal `created_at` and `updated_at`
timestamps. -/
theorem c5_create_defaults (store : List Task) (b : CreateBody)
    (freshId : String) (now : Nat) (h : strTrim b.title ≠ "")
    (hp : b.priority = none) (hc : b.category = none) :
    ∃ t : Task, (serviceCreate store b freshId now).1 = .ok t ∧
      t.priority = .medium ∧ t.category = .personal ∧ t.status = .pending ∧
      t.created_at = t.updated_at := by
  refine ⟨{ id := freshId, title := strTrim b.title,
            description := b.description, due_date := b.due_date,
            priority := b.priority.getD .medium,
            category := b.category.getD .personal, status := .pending,
            created_at := now, updated_at := now }, ?_, ?_, ?_, rfl, rfl⟩
  · simp [serviceCreate, h]
  · simp [hp]
  · simp [hc]

/-- C8: a task without a due date is never classified by any due-date
computation: `getDueDateInfo` yields no badge for it, and it contributes
neither to the overdue stat of the list screen nor to the analytics
overdue and today counts, whatever the calendar functions and
the current time are. -/
theorem c8_no_due_date_never_overdue (df : DateFns) (now : Nat) (t : Task)
    (ts : List Task) (h : t.due_date = none) :
    getDueDateInfo df now t.due_date = none ∧
    (getTaskStats df (t :: ts)).overdue = (getTaskStats df ts).overdue ∧
    overdueTasksCount df now (t :: ts) = overdueTasksCount df now ts ∧
    todaysTasksCount df now (t :: ts) = todaysTasksCount df now ts := by
  refine ⟨?_, ?_, ?_, ?_⟩ <;>
    simp [getDueDateInfo, getTaskStats, overdueTasksCount, todaysTasksCount, h]

/-- Witness for C3 at a whitespace-only title. -/
theorem c3_witness :
    serviceCreate [] ⟨"  ", none, none, none, none⟩ "id1" 0 =
      (.error .validation, []) ∧
    quickAddBody "  " = none ∧
    (∀ d pr cat due, createTaskBody "  " d pr cat due = none) :=
  c3_empty_title_create_rejected [] ⟨"  ", none, none, none, none⟩ "id1" 0 "  "
    (by decide) (by decide)

/-- Witness for C4 at a one-task store whose task has the updated id. -/
theorem c4_witness :
    serviceUpdate [sampleTask] "1" (statusOnly .completed) 9 =
      .ok ([sampleTask].map fun t =>
        if t.id == "1" then { t with status := Status.completed, updated_at := 9 }
        else t) :=
  c4_status_only_update_frame [sampleTask] "1" .completed 9 (by decide)

/-- Witness for C5 at a create body carrying only the title "Buy milk". -/
theorem c5_witness :
    ∃ t : Task,
      (serviceCreate [] ⟨"Buy milk", none, none, none, none⟩ "id1" 7).1 = .ok t ∧
      t.priority = .medium ∧ t.category = .personal ∧ t.status = .pending ∧
      t.created_at = t.updated_at :=
  c5_create_defaults [] ⟨"Buy milk", none, none, none, none⟩ "id1" 7
    (by decide) rfl rfl

/-- Witness for C8 at a concrete task without a due date. -/
theorem c8_witness :
    getDueDateInfo sampleDateFns 0 sampleTask.due_date = none ∧
    (getTaskStats sampleDateFns [sampleTask, sampleTask2]).overdue =
      (getTaskStats sampleDateFns [sampleTask2]).overdue ∧
    overdueTasksCount sampleDateFns 0 [sampleTask, sampleTask2] =
      overdueTasksCount sampleDateFns 0 [sampleTask2] ∧
    todaysTasksCount sampleDateFns 0 [sampleTask, sampleTask2] =
      todaysTasksCount sampleDateFns 0 [sampleTask2] :=
  c8_no_due_date_never_overdue sampleDateFns 0 sampleTask [sampleTask2] rfl

/-- Witness for C9 at a concrete one-task list and the query "milk". -/
theorem c9_witness :
    sampleTask ∈
      filteredSortedTasks [sampleTask] "milk" "all" "all" "all" "created_at" :=
  (c9_search_filter [sampleTask] "milk" "all" "all" "all" "created_at"
      sampleTask (by decide)).mpr
    ⟨by decide, Or.inl (by decide), by decide, by decide, by decide⟩

/-- Witness for C10 at a concrete one-task list. -/
theorem c10_witness :
    sampleTask ∈ [sampleTask] ∧
    (filteredSortedTasks [sampleTask] "" "all" "all" "all" "title").Perm
      [sampleTask] :=
  ⟨(c10_pipeline_no_fabrication [sampleTask] "" "all" "all" "all" "title").1
      sampleTask (by decide),
   (c10_pipeline_no_fabrication [sampleTask] "" "all" "all" "all" "title").2⟩

end TaskMaster
